import Mathlib

/-!
Shallow embedding of the Runtime Upgrade Orchestrator sources:

* `components/kyma-environment-broker/internal/storage/driver/memory/operation.go`
  (the in-memory operations store), and
* `components/kyma-environment-broker/cmd/cli/command/options.go`
  (runtime target option parsing).

Go maps are modelled as association lists `List (String × α)` (the list order
stands for one concrete iteration order of the Go map, which Go leaves
unspecified).  Go's `map[k]` read on a missing key yields the zero value,
which is modelled explicitly.  `time.Time` values (`CreatedAt`) are modelled
as integers with `Before` as `<`.  Go `int` fields that only ever get
compared or incremented by one (`Version`) are modelled as `Int`.  Functions
that mutate the receiver are modelled by returning the new store state next
to the Go return values; the error-free value paths of `error` results
become `Option`/`Except` values.
-/

/-- Shared operation core (package `internal`): the fields of the embedded
`Operation` struct that the analysed code reads or writes. -/
structure Operation where
  ID : String
  Version : Int
  InstanceID : String
  CreatedAt : Int
  State : String
deriving DecidableEq

/-- `internal.ProvisioningOperation`: wraps the shared operation core. -/
structure ProvisioningOperation where
  Operation : Operation
deriving DecidableEq

/-- `internal.DeprovisioningOperation`: wraps the shared operation core. -/
structure DeprovisioningOperation where
  Operation : Operation
deriving DecidableEq

/-- `internal.UpgradeKymaOperation`: the shared operation core plus the
orchestration the operation belongs to. -/
structure UpgradeKymaOperation where
  Operation : Operation
  OrchestrationID : String
deriving DecidableEq

/-- Field promotion of the embedded struct: `op.ID` in Go. -/
def UpgradeKymaOperation.ID (op : UpgradeKymaOperation) : String :=
  op.Operation.ID

/-- Field promotion of the embedded struct: `op.Version` in Go. -/
def UpgradeKymaOperation.Version (op : UpgradeKymaOperation) : Int :=
  op.Operation.Version

/-- Field promotion of the embedded struct: `op.InstanceID` in Go. -/
def UpgradeKymaOperation.InstanceID (op : UpgradeKymaOperation) : String :=
  op.Operation.InstanceID

/-- Field promotion of the embedded struct: `op.CreatedAt` in Go. -/
def UpgradeKymaOperation.CreatedAt (op : UpgradeKymaOperation) : Int :=
  op.Operation.CreatedAt

/-- Field promotion of the embedded struct: `op.State` in Go. -/
def UpgradeKymaOperation.State (op : UpgradeKymaOperation) : String :=
  op.Operation.State

/-- Go zero value of the shared operation core. -/
def zeroOperation : Operation :=
  { ID := "", Version := 0, InstanceID := "", CreatedAt := 0, State := "" }

/-- Go zero value of `internal.UpgradeKymaOperation`: what a Go map read
returns for a missing key. -/
def zeroUpgradeKymaOperation : UpgradeKymaOperation :=
  { Operation := zeroOperation, OrchestrationID := "" }

/-- A Go `map[string]α` in one concrete iteration order. -/
def GoMap (α : Type) : Type :=
  List (String × α)

/-- Go map read `m[k]` together with the presence bit: `none` when the key is
absent. -/
def goMapLookup {α : Type} (m : GoMap α) (k : String) : Option α :=
  match m with
  | [] => none
  | (k1, v) :: rest => if k1 = k then some v else goMapLookup rest k

/-- Go map write `m[k] = v`: replaces the entry when the key is present and
appends a fresh entry otherwise. -/
def goMapStore {α : Type} (m : GoMap α) (k : String) (v : α) : GoMap α :=
  match m with
  | [] => [(k, v)]
  | (k1, v1) :: rest => if k1 = k then (k, v) :: rest else (k1, v1) :: goMapStore rest k v

/-- The values of a Go map, in iteration order (`for _, v := range m`). -/
def goMapValues {α : Type} (m : GoMap α) : List α :=
  m.map (fun kv => kv.2)

/-- Go map read `m[k]` as an expression: the zero value for a missing key. -/
def goMapIndexUpgrade (m : GoMap UpgradeKymaOperation) (k : String) : UpgradeKymaOperation :=
  (goMapLookup m k).getD zeroUpgradeKymaOperation

/-- Error kinds of package `storage/dberr` used by the operations store. -/
inductive DBErr where
  | NotFound
  | AlreadyExists
  | Conflict
deriving DecidableEq

/-- The in-memory operations store (struct `operations` in
`memory/operation.go`).  The mutex only guards Go-level data races and has no
observable effect on the sequential semantics modelled here. -/
structure operations where
  provisioningOperations : GoMap ProvisioningOperation
  deprovisioningOperations : GoMap DeprovisioningOperation
  upgradeKymaOperations : GoMap UpgradeKymaOperation

/-- `NewOperation` creates the empty in-memory storage. -/
def NewOperation : operations :=
  { provisioningOperations := [], deprovisioningOperations := [], upgradeKymaOperations := [] }

/-- `InsertProvisioningOperation` from `memory/operation.go`. -/
def operations.InsertProvisioningOperation (s : operations)
    (operation : ProvisioningOperation) : operations × Option DBErr :=
  let id := operation.Operation.ID
  match goMapLookup s.provisioningOperations id with
  | some _ => (s, some DBErr.AlreadyExists)
  | none =>
      ({ s with provisioningOperations := goMapStore s.provisioningOperations id operation },
       none)

/-- `GetProvisioningOperationByID` from `memory/operation.go`. -/
def operations.GetProvisioningOperationByID (s : operations)
    (operationID : String) : Except DBErr ProvisioningOperation :=
  match goMapLookup s.provisioningOperations operationID with
  | none => Except.error DBErr.NotFound
  | some op => Except.ok op

/-- `UpdateProvisioningOperation` from `memory/operation.go`: compare-and-swap
on `Version`. -/
def operations.UpdateProvisioningOperation (s : operations)
    (op : ProvisioningOperation) : operations × Except DBErr ProvisioningOperation :=
  match goMapLookup s.provisioningOperations op.Operation.ID with
  | none => (s, Except.error DBErr.NotFound)
  | some oldOp =>
      if oldOp.Operation.Version ≠ op.Operation.Version then
        (s, Except.error DBErr.Conflict)
      else
        let op1 : ProvisioningOperation :=
          { op with Operation := { op.Operation with Version := op.Operation.Version + 1 } }
        ({ s with provisioningOperations :=
             goMapStore s.provisioningOperations op1.Operation.ID op1 },
         Except.ok op1)

/-- `InsertDeprovisioningOperation` from `memory/operation.go`. -/
def operations.InsertDeprovisioningOperation (s : operations)
    (operation : DeprovisioningOperation) : operations × Option DBErr :=
  let id := operation.Operation.ID
  match goMapLookup s.deprovisioningOperations id with
  | some _ => (s, some DBErr.AlreadyExists)
  | none =>
      ({ s with deprovisioningOperations := goMapStore s.deprovisioningOperations id operation },
       none)

/-- `GetDeprovisioningOperationByID` from `memory/operation.go`. -/
def operations.GetDeprovisioningOperationByID (s : operations)
    (operationID : String) : Except DBErr DeprovisioningOperation :=
  match goMapLookup s.deprovisioningOperations operationID with
  | none => Except.error DBErr.NotFound
  | some op => Except.ok op

/-- `UpdateDeprovisioningOperation` from `memory/operation.go`: compare-and-swap
on `Version`. -/
def operations.UpdateDeprovisioningOperation (s : operations)
    (op : DeprovisioningOperation) : operations × Except DBErr DeprovisioningOperation :=
  match goMapLookup s.deprovisioningOperations op.Operation.ID with
  | none => (s, Except.error DBErr.NotFound)
  | some oldOp =>
      if oldOp.Operation.Version ≠ op.Operation.Version then
        (s, Except.error DBErr.Conflict)
      else
        let op1 : DeprovisioningOperation :=
          { op with Operation := { op.Operation with Version := op.Operation.Version + 1 } }
        ({ s with deprovisioningOperations :=
             goMapStore s.deprovisioningOperations op1.Operation.ID op1 },
         Except.ok op1)

/-- `InsertUpgradeKymaOperation` from `memory/operation.go`. -/
def operations.InsertUpgradeKymaOperation (s : operations)
    (operation : UpgradeKymaOperation) : operations × Option DBErr :=
  let id := operation.Operation.ID
  match goMapLookup s.upgradeKymaOperations id with
  | some _ => (s, some DBErr.AlreadyExists)
  | none =>
      ({ s with upgradeKymaOperations := goMapStore s.upgradeKymaOperations id operation },
       none)

/-- `GetUpgradeKymaOperationByID` from `memory/operation.go`. -/
def operations.GetUpgradeKymaOperationByID (s : operations)
    (operationID : String) : Except DBErr UpgradeKymaOperation :=
  match goMapLookup s.upgradeKymaOperations operationID with
  | none => Except.error DBErr.NotFound
  | some op => Except.ok op

/-- `UpdateUpgradeKymaOperation` from `memory/operation.go`: compare-and-swap
on `Version`. -/
def operations.UpdateUpgradeKymaOperation (s : operations)
    (op : UpgradeKymaOperation) : operations × Except DBErr UpgradeKymaOperation :=
  match goMapLookup s.upgradeKymaOperations op.Operation.ID with
  | none => (s, Except.error DBErr.NotFound)
  | some oldOp =>
      if oldOp.Operation.Version ≠ op.Operation.Version then
        (s, Except.error DBErr.Conflict)
      else
        let op1 : UpgradeKymaOperation :=
          { op with Operation := { op.Operation with Version := op.Operation.Version + 1 } }
        ({ s with upgradeKymaOperations :=
             goMapStore s.upgradeKymaOperations op1.Operation.ID op1 },
         Except.ok op1)

/-- `GetOperationByID` from `memory/operation.go`: scans the three kind maps
in the order provisioning, deprovisioning, upgrade-Kyma, each hit overwriting
`res`. -/
def operations.GetOperationByID (s : operations) (operationID : String) :
    Except DBErr Operation :=
  let res : Option Operation := none
  let res := match goMapLookup s.provisioningOperations operationID with
    | some provisionOp => some provisionOp.Operation
    | none => res
  let res := match goMapLookup s.deprovisioningOperations operationID with
    | some deprovisionOp => some deprovisionOp.Operation
    | none => res
  let res := match goMapLookup s.upgradeKymaOperations operationID with
    | some upgradeKymaOp => some upgradeKymaOp.Operation
    | none => res
  match res with
  | none => Except.error DBErr.NotFound
  | some r => Except.ok r

/-- Inner loop of `GetOperationsForIDs` for one kind: for each id of
`opIdList`, scan the kind's values in iteration order and append the
operation core of every value whose `Operation.ID` matches. -/
def appendOpsMatchingIDs {α : Type} (opIdList : List String) (vals : List α)
    (opOf : α → Operation) (ops : List Operation) : List Operation :=
  opIdList.foldl
    (fun acc opID =>
      vals.foldl
        (fun acc2 op => if (opOf op).ID = opID then acc2 ++ [opOf op] else acc2)
        acc)
    ops

/-- `GetOperationsForIDs` from `memory/operation.go`: collects matches for the
given ids kind by kind (upgrade-Kyma, then provisioning, then
deprovisioning) and fails with `NotFound` when nothing matched at all. -/
def operations.GetOperationsForIDs (s : operations) (opIdList : List String) :
    Except DBErr (List Operation) :=
  let ops : List Operation := []
  let ops := appendOpsMatchingIDs opIdList (goMapValues s.upgradeKymaOperations)
    (fun op => op.Operation) ops
  let ops := appendOpsMatchingIDs opIdList (goMapValues s.provisioningOperations)
    (fun op => op.Operation) ops
  let ops := appendOpsMatchingIDs opIdList (goMapValues s.deprovisioningOperations)
    (fun op => op.Operation) ops
  if ops.length = 0 then Except.error DBErr.NotFound else Except.ok ops

/-- `domain.InProgress` of the external broker API. -/
def InProgress : String := "in progress"

/-- `domain.Succeeded` of the external broker API. -/
def Succeeded : String := "succeeded"

/-- `domain.Failed` of the external broker API. -/
def Failed : String := "failed"

/-- `GetOperationStatsForOrchestration` from `memory/operation.go`, viewed as
the count-per-state function of the returned map.  The Go code initialises the
map with the three well-known states at count 0 and then increments
`result[op.State]`; since a Go map read yields 0 for a missing key, the
returned map read at any state equals the constant-zero function folded over
all upgrade-Kyma operations, which is the translation below.  Note that the
source iterates over every upgrade-Kyma operation without consulting
`orchestrationID`. -/
def operations.GetOperationStatsForOrchestration (s : operations)
    (orchestrationID : String) : String → Nat :=
  (goMapValues s.upgradeKymaOperations).foldl
    (fun result op =>
      fun st => if st = op.State then result op.State + 1 else result st)
    (fun _ => 0)

/-- Modelled from the spec: the pagination helper
`pagination.ConvertPageAndPageSizeToOffset` is part of this repository but
not among the analysed sources; its callers use 1-based pages, so per the
spec's `List(filter, page, pageSize)` contract page `page` starts at offset
`(page - 1) * pageSize` (Nat subtraction maps the degenerate page 0 to
offset 0 as well). -/
def ConvertPageAndPageSizeToOffset (pageSize page : Nat) : Nat :=
  (page - 1) * pageSize

/-- The comparator of `getUpgradeSortedByCreatedAt`:
`operationsList[i].CreatedAt.Before(operationsList[j].CreatedAt)` sorts by
`CreatedAt` ascending.  Go's `sort.Slice` leaves the order of ties
unspecified; the non-strict relation below paired with insertion sort is one
admissible outcome. -/
def createdAtLE (a b : UpgradeKymaOperation) : Prop :=
  a.CreatedAt ≤ b.CreatedAt

instance : DecidableRel createdAtLE :=
  fun a b => inferInstanceAs (Decidable (a.CreatedAt ≤ b.CreatedAt))

/-- `getUpgradeSortedByCreatedAt` from `memory/operation.go`: lists the map's
values and sorts them by `CreatedAt` ascending. -/
def getUpgradeSortedByCreatedAt (operationsMap : GoMap UpgradeKymaOperation) :
    List UpgradeKymaOperation :=
  List.insertionSort createdAtLE (goMapValues operationsMap)

/-- The pagination loop of `ListUpgradeKymaOperationsByOrchestrationID`:

`for i := offset; i < offset+pageSize && i < len(sortedOperations)+offset; i++`

with body `result = append(result, s.upgradeKymaOperations[sortedOperations[i].OrchestrationID])`.
`none` models the Go runtime panic of an out-of-range slice index; the map
read inside the body uses Go's zero value for missing keys. -/
def listUpgradeLoop (upgradeKymaOperations : GoMap UpgradeKymaOperation)
    (sortedOperations : List UpgradeKymaOperation) (offset pageSize i : Nat) :
    Option (List UpgradeKymaOperation) :=
  if i < offset + pageSize ∧ i < sortedOperations.length + offset then
    match sortedOperations[i]? with
    | none => none
    | some op =>
        match listUpgradeLoop upgradeKymaOperations sortedOperations offset pageSize (i + 1) with
        | none => none
        | some rest =>
            some (goMapIndexUpgrade upgradeKymaOperations op.OrchestrationID :: rest)
  else
    some []
termination_by offset + pageSize - i
decreasing_by
  rename_i h
  omega

/-- `ListUpgradeKymaOperationsByOrchestrationID` from `memory/operation.go`.
The first loop filters by `OrchestrationID` into `result`, but the source
then reassigns `result` before reading it, so the filtered list is dead code
(kept here as the discarded binding).  The page is then cut out of the list
of all upgrade-Kyma operations sorted by `CreatedAt`, each slot re-read from
the map under the key `sortedOperations[i].OrchestrationID`.  Returns
`(items, len(items), len(map))`; `none` models an index-out-of-range panic
inside the loop. -/
def operations.ListUpgradeKymaOperationsByOrchestrationID (s : operations)
    (orchestrationID : String) (pageSize page : Nat) :
    Option (List UpgradeKymaOperation × Nat × Nat) :=
  let _result := (goMapValues s.upgradeKymaOperations).filter
    (fun op => decide (op.OrchestrationID = orchestrationID))
  let offset := ConvertPageAndPageSizeToOffset pageSize page
  let sortedOperations := getUpgradeSortedByCreatedAt s.upgradeKymaOperations
  match listUpgradeLoop s.upgradeKymaOperations sortedOperations offset pageSize offset with
  | none => none
  | some result => some (result, result.length, (goMapValues s.upgradeKymaOperations).length)

/-- `ListUpgradeKymaOperationsByInstanceID` from `memory/operation.go`.  The
first loop filters by `InstanceID` into `result`, but the source then
reassigns `result` and returns `sortedOperations` instead, so the filtered
list is dead code (kept here as the discarded binding); the error result is
always `nil`. -/
def operations.ListUpgradeKymaOperationsByInstanceID (s : operations)
    (instanceID : String) : List UpgradeKymaOperation :=
  let _result := (goMapValues s.upgradeKymaOperations).filter
    (fun op => decide (op.InstanceID = instanceID))
  let sortedOperations := getUpgradeSortedByCreatedAt s.upgradeKymaOperations
  sortedOperations

/-- Selector key constant `targetAccount` of `cmd/cli/command/options.go`. -/
def targetAccount : String := "account"

/-- Selector key constant `targetSubaccount` of `cmd/cli/command/options.go`. -/
def targetSubaccount : String := "subaccount"

/-- Selector key constant `targetRuntimeID` of `cmd/cli/command/options.go`. -/
def targetRuntimeID : String := "runtime-id"

/-- Selector key constant `targetRegion` of `cmd/cli/command/options.go`. -/
def targetRegion : String := "region"

/-- Modelled from the spec: the constant `internal.TargetAll` is part of this
repository but not among the analysed sources; the spec names it "the
literal `all`". -/
def TargetAll : String := "all"

/-- `internal.RuntimeTarget`: one parsed target specifier (conjunction of
selectors).  Go zero values as field defaults. -/
structure RuntimeTarget where
  Target : String := ""
  GlobalAccount : String := ""
  SubAccount : String := ""
  Region : String := ""
  RuntimeID : String := ""
deriving DecidableEq

/-- `internal.TargetSpec`: include and exclude selector lists. -/
structure TargetSpec where
  Include : List RuntimeTarget := []
  Exclude : List RuntimeTarget := []
deriving DecidableEq

/-- `checkRuntimeTargetSelector` from `options.go`: `some message` is the Go
non-nil error for a missing selector value. -/
def checkRuntimeTargetSelector (selectorKey selectorValue flagName : String) :
    Option String :=
  if selectorValue = "" then
    some (flagName ++ " " ++ selectorKey ++ " is missing required value (--target "
      ++ selectorKey ++ "=<VALUE>)")
  else
    none

/-- One iteration of the selector switch inside `parseRuntimeTarget`, applied
to the already-split `selectorKey`/`selectorValue` pair.  The Go `switch`
cases appear in source order. -/
def runtimeTargetSelectorStep (target : RuntimeTarget)
    (selectorKey selectorValue : String) (includeFlag : Bool) (flagName : String) :
    Except String RuntimeTarget :=
  if selectorKey = TargetAll then
    if !includeFlag then
      Except.error ("\"" ++ TargetAll ++ "\" cannot be used with --target-exclude")
    else
      Except.ok { target with Target := TargetAll }
  else if selectorKey = targetAccount then
    match checkRuntimeTargetSelector selectorKey selectorValue flagName with
    | some e => Except.error e
    | none => Except.ok { target with GlobalAccount := selectorValue }
  else if selectorKey = targetSubaccount then
    match checkRuntimeTargetSelector selectorKey selectorValue flagName with
    | some e => Except.error e
    | none => Except.ok { target with SubAccount := selectorValue }
  else if selectorKey = targetRegion then
    match checkRuntimeTargetSelector selectorKey selectorValue flagName with
    | some e => Except.error e
    | none => Except.ok { target with Region := selectorValue }
  else if selectorKey = targetRuntimeID then
    match checkRuntimeTargetSelector selectorKey selectorValue flagName with
    | some e => Except.error e
    | none => Except.ok { target with RuntimeID := selectorValue }
  else
    Except.error ("invalid selector: " ++ flagName ++ " " ++ selectorKey)

/-- Character-list core of Go's `strings.Split` for a one-character
separator: splitting the empty string yields one empty field, and every
separator occurrence starts a new field. -/
def splitCharAux (sep : Char) : List Char → List (List Char)
  | [] => [[]]
  | c :: rest =>
      let r := splitCharAux sep rest
      if c = sep then [] :: r
      else
        match r with
        | [] => [[c]]
        | w :: ws => (c :: w) :: ws

/-- Go's `strings.Split(s, sep)` for the one-character separators `","` and
`"="` used by `options.go`. -/
def goSplit (s : String) (sep : Char) : List String :=
  (splitCharAux sep s.toList).map (fun cs => String.mk cs)

/-- The body of one iteration of the selector loop in `parseRuntimeTarget`:
split the selector at `=`, read `sv[0]` and the guarded `sv[1]` exactly as
the source does, and run the selector switch. -/
def parseOneSelector (target : RuntimeTarget) (selector : String)
    (includeFlag : Bool) (flagName : String) : Except String RuntimeTarget :=
  let sv := goSplit selector '='
  let selectorKey := sv.headD ""
  let selectorValue := match sv with
    | _ :: v :: _ => v
    | _ => ""
  runtimeTargetSelectorStep target selectorKey selectorValue includeFlag flagName

/-- The loop of `parseRuntimeTarget` over the comma-separated selectors,
threading the accumulated `RuntimeTarget` and returning the first error. -/
def parseSelectors (target : RuntimeTarget) (selectors : List String)
    (includeFlag : Bool) (flagName : String) : Except String RuntimeTarget :=
  match selectors with
  | [] => Except.ok target
  | selector :: rest =>
      match parseOneSelector target selector includeFlag flagName with
      | Except.error e => Except.error e
      | Except.ok target1 => parseSelectors target1 rest includeFlag flagName

/-- `parseRuntimeTarget` from `options.go`, returning the parsed
`RuntimeTarget` that the source appends to `*targets` on success. -/
def parseRuntimeTarget (targetInput : String) (includeFlag : Bool) :
    Except String RuntimeTarget :=
  let flagName := if includeFlag then "--target" else "--target-exclude"
  parseSelectors {} (goSplit targetInput ',') includeFlag flagName

/-- The caller-side append of `parseRuntimeTarget`: parse each input in order
and append the parsed target to the accumulated list, stopping at the first
error (the loops of `ValidateTransformRuntimeTargetOpts`). -/
def appendParsedTargets (inputs : List String) (targets : List RuntimeTarget)
    (includeFlag : Bool) : Except String (List RuntimeTarget) :=
  match inputs with
  | [] => Except.ok targets
  | t :: rest =>
      match parseRuntimeTarget t includeFlag with
      | Except.error e => Except.error e
      | Except.ok rt => appendParsedTargets rest (targets ++ [rt]) includeFlag

/-- `ValidateTransformRuntimeTargetOpts` from `options.go`: rejects an empty
include list up front, then parses the include inputs followed by the exclude
inputs into the given `TargetSpec`. -/
def ValidateTransformRuntimeTargetOpts (targetInputs targetExcludeInputs : List String)
    (targetSpec : TargetSpec) : Except String TargetSpec :=
  if targetInputs.length = 0 then
    Except.error "at least one runtime target must be specified with --target"
  else
    match appendParsedTargets targetInputs targetSpec.Include true with
    | Except.error e => Except.error e
    | Except.ok inc =>
        match appendParsedTargets targetExcludeInputs targetSpec.Exclude false with
        | Except.error e => Except.error e
        | Except.ok exc => Except.ok { targetSpec with Include := inc, Exclude := exc }

/-- Truth value of an `Except` result being a success, mirroring a Go `err == nil` check. -/
def exceptOk {ε α : Type} (e : Except ε α) : Bool :=
  match e with
  | Except.ok _ => true
  | Except.error _ => false

/-- A concrete upgrade-Kyma operation used to evaluate the store functions. -/
def sampleUpgradeOp : UpgradeKymaOperation :=
  { Operation :=
      { ID := "op1", Version := 0, InstanceID := "inst1", CreatedAt := 0, State := InProgress },
    OrchestrationID := "orch1" }

/-- A store holding exactly one upgrade-Kyma operation, keyed by its id. -/
def sampleStore : operations :=
  { provisioningOperations := [],
    deprovisioningOperations := [],
    upgradeKymaOperations := [("op1", sampleUpgradeOp)] }

/-- A concrete provisioning operation used to evaluate the store functions. -/
def sampleProvisioningOp : ProvisioningOperation :=
  { Operation :=
      { ID := "p1", Version := 0, InstanceID := "inst2", CreatedAt := 1, State := Succeeded } }

/-- A concrete deprovisioning operation used to evaluate the store functions. -/
def sampleDeprovisioningOp : DeprovisioningOperation :=
  { Operation :=
      { ID := "d1", Version := 0, InstanceID := "inst3", CreatedAt := 2, State := Failed } }

/-- A store holding one operation of each kind. -/
def witnessStore : operations :=
  { provisioningOperations := [("p1", sampleProvisioningOp)],
    deprovisioningOperations := [("d1", sampleDeprovisioningOp)],
    upgradeKymaOperations := [("op1", sampleUpgradeOp)] }

theorem goMapLookup_goMapStore_self {α : Type} (m : GoMap α) (k : String) (v : α) :
    goMapLookup (goMapStore m k v) k = some v := by
  induction m with
  | nil => simp [goMapStore, goMapLookup]
  | cons kv rest ih =>
      obtain ⟨k1, v1⟩ := kv
      by_cases h : k1 = k
      · simp [goMapStore, goMapLookup, h]
      · simp [goMapStore, goMapLookup, h, ih]

/-- C1: for every stored operation and each of the three Update functions
(`UpdateProvisioningOperation`, `UpdateDeprovisioningOperation`,
`UpdateUpgradeKymaOperation`), a call whose operation carries a version
different from the stored one returns `Conflict` and leaves the store
unchanged; a call whose version matches succeeds, the stored entity becomes
the given value with version incremented by exactly 1, and a second update
submitted against the same stored version returns `Conflict` without
mutating the store, so exactly one of the two updates succeeds and the
stored entity equals the winner's value. -/
theorem update_operation_cas :
    (∀ (s : operations) (op stored : ProvisioningOperation),
      goMapLookup s.provisioningOperations op.Operation.ID = some stored →
      (stored.Operation.Version ≠ op.Operation.Version →
          s.UpdateProvisioningOperation op = (s, Except.error DBErr.Conflict))
      ∧ (stored.Operation.Version = op.Operation.Version →
          (s.UpdateProvisioningOperation op).2 =
              Except.ok
                { op with Operation := { op.Operation with Version := op.Operation.Version + 1 } }
          ∧ goMapLookup (s.UpdateProvisioningOperation op).1.provisioningOperations
                op.Operation.ID =
              some { op with Operation := { op.Operation with Version := op.Operation.Version + 1 } }
          ∧ (∀ op2 : ProvisioningOperation,
              op2.Operation.ID = op.Operation.ID →
              op2.Operation.Version = stored.Operation.Version →
              ((s.UpdateProvisioningOperation op).1.UpdateProvisioningOperation op2).1 =
                  (s.UpdateProvisioningOperation op).1
              ∧ ((s.UpdateProvisioningOperation op).1.UpdateProvisioningOperation op2).2 =
                  Except.error DBErr.Conflict)))
    ∧ (∀ (s : operations) (op stored : DeprovisioningOperation),
      goMapLookup s.deprovisioningOperations op.Operation.ID = some stored →
      (stored.Operation.Version ≠ op.Operation.Version →
          s.UpdateDeprovisioningOperation op = (s, Except.error DBErr.Conflict))
      ∧ (stored.Operation.Version = op.Operation.Version →
          (s.UpdateDeprovisioningOperation op).2 =
              Except.ok
                { op with Operation := { op.Operation with Version := op.Operation.Version + 1 } }
          ∧ goMapLookup (s.UpdateDeprovisioningOperation op).1.deprovisioningOperations
                op.Operation.ID =
              some { op with Operation := { op.Operation with Version := op.Operation.Version + 1 } }
          ∧ (∀ op2 : DeprovisioningOperation,
              op2.Operation.ID = op.Operation.ID →
              op2.Operation.Version = stored.Operation.Version →
              ((s.UpdateDeprovisioningOperation op).1.UpdateDeprovisioningOperation op2).1 =
                  (s.UpdateDeprovisioningOperation op).1
              ∧ ((s.UpdateDeprovisioningOperation op).1.UpdateDeprovisioningOperation op2).2 =
                  Except.error DBErr.Conflict)))
    ∧ (∀ (s : operations) (op stored : UpgradeKymaOperation),
      goMapLookup s.upgradeKymaOperations op.Operation.ID = some stored →
      (stored.Operation.Version ≠ op.Operation.Version →
          s.UpdateUpgradeKymaOperation op = (s, Except.error DBErr.Conflict))
      ∧ (stored.Operation.Version = op.Operation.Version →
          (s.UpdateUpgradeKymaOperation op).2 =
              Except.ok
                { op with Operation := { op.Operation with Version := op.Operation.Version + 1 } }
          ∧ goMapLookup (s.UpdateUpgradeKymaOperation op).1.upgradeKymaOperations
                op.Operation.ID =
              some { op with Operation := { op.Operation with Version := op.Operation.Version + 1 } }
          ∧ (∀ op2 : UpgradeKymaOperation,
              op2.Operation.ID = op.Operation.ID →
              op2.Operation.Version = stored.Operation.Version →
              ((s.UpdateUpgradeKymaOperation op).1.UpdateUpgradeKymaOperation op2).1 =
                  (s.UpdateUpgradeKymaOperation op).1
              ∧ ((s.UpdateUpgradeKymaOperation op).1.UpdateUpgradeKymaOperation op2).2 =
                  Except.error DBErr.Conflict))) := by
  refine ⟨?_, ?_, ?_⟩
  · intro s op stored h
    constructor
    · intro hne
      simp only [operations.UpdateProvisioningOperation, h, if_pos hne]
    · intro heq
      have hcond : ¬(stored.Operation.Version ≠ op.Operation.Version) := by
        simp [heq]
      have hver2 : ∀ op2 : ProvisioningOperation,
          op2.Operation.Version = stored.Operation.Version →
          ({ op with Operation :=
              { op.Operation with Version := op.Operation.Version + 1 } } :
                ProvisioningOperation).Operation.Version ≠ op2.Operation.Version := by
        intro op2 h2
        simp only [h2, ← heq]
        omega
      refine ⟨?_, ?_, ?_⟩
      · simp only [operations.UpdateProvisioningOperation, h, if_neg hcond]
      · simp only [operations.UpdateProvisioningOperation, h, if_neg hcond]
        exact goMapLookup_goMapStore_self _ _ _
      · intro op2 hid h2
        simp only [operations.UpdateProvisioningOperation, h, if_neg hcond, hid,
          goMapLookup_goMapStore_self, if_pos (hver2 op2 h2)]
        exact ⟨trivial, trivial⟩
  · intro s op stored h
    constructor
    · intro hne
      simp only [operations.UpdateDeprovisioningOperation, h, if_pos hne]
    · intro heq
      have hcond : ¬(stored.Operation.Version ≠ op.Operation.Version) := by
        simp [heq]
      have hver2 : ∀ op2 : DeprovisioningOperation,
          op2.Operation.Version = stored.Operation.Version →
          ({ op with Operation :=
              { op.Operation with Version := op.Operation.Version + 1 } } :
                DeprovisioningOperation).Operation.Version ≠ op2.Operation.Version := by
        intro op2 h2
        simp only [h2, ← heq]
        omega
      refine ⟨?_, ?_, ?_⟩
      · simp only [operations.UpdateDeprovisioningOperation, h, if_neg hcond]
      · simp only [operations.UpdateDeprovisioningOperation, h, if_neg hcond]
        exact goMapLookup_goMapStore_self _ _ _
      · intro op2 hid h2
        simp only [operations.UpdateDeprovisioningOperation, h, if_neg hcond, hid,
          goMapLookup_goMapStore_self, if_pos (hver2 op2 h2)]
        exact ⟨trivial, trivial⟩
  · intro s op stored h
    constructor
    · intro hne
      simp only [operations.UpdateUpgradeKymaOperation, h, if_pos hne]
    · intro heq
      have hcond : ¬(stored.Operation.Version ≠ op.Operation.Version) := by
        simp [heq]
      have hver2 : ∀ op2 : UpgradeKymaOperation,
          op2.Operation.Version = stored.Operation.Version →
          ({ op with Operation :=
              { op.Operation with Version := op.Operation.Version + 1 } } :
                UpgradeKymaOperation).Operation.Version ≠ op2.Operation.Version := by
        intro op2 h2
        simp only [h2, ← heq]
        omega
      refine ⟨?_, ?_, ?_⟩
      · simp only [operations.UpdateUpgradeKymaOperation, h, if_neg hcond]
      · simp only [operations.UpdateUpgradeKymaOperation, h, if_neg hcond]
        exact goMapLookup_goMapStore_self _ _ _
      · intro op2 hid h2
        simp only [operations.UpdateUpgradeKymaOperation, h, if_neg hcond, hid,
          goMapLookup_goMapStore_self, if_pos (hver2 op2 h2)]
        exact ⟨trivial, trivial⟩

/-- C1 witness: evaluating `update_operation_cas` on concrete stores: a stale
provisioning update conflicts without mutation, a matching deprovisioning
update succeeds with version 0 bumped to 1, and the second of two upgrade
updates submitted against stored version 0 conflicts. -/
theorem update_operation_cas_witness :
    witnessStore.UpdateProvisioningOperation
        { sampleProvisioningOp with Operation :=
            { sampleProvisioningOp.Operation with Version := 5 } } =
      (witnessStore, Except.error DBErr.Conflict)
    ∧ (witnessStore.UpdateDeprovisioningOperation sampleDeprovisioningOp).2 =
      Except.ok
        { sampleDeprovisioningOp with Operation :=
            { sampleDeprovisioningOp.Operation with
                Version := sampleDeprovisioningOp.Operation.Version + 1 } }
    ∧ ((witnessStore.UpdateUpgradeKymaOperation sampleUpgradeOp).1.UpdateUpgradeKymaOperation
          sampleUpgradeOp).2 =
      Except.error DBErr.Conflict := by
  refine ⟨?_, ?_, ?_⟩
  · exact (update_operation_cas.1 witnessStore
      { sampleProvisioningOp with Operation :=
          { sampleProvisioningOp.Operation with Version := 5 } }
      sampleProvisioningOp (by decide)).1 (by decide)
  · exact ((update_operation_cas.2.1 witnessStore sampleDeprovisioningOp
      sampleDeprovisioningOp (by decide)).2 rfl).1
  · exact (((update_operation_cas.2.2 witnessStore sampleUpgradeOp
      sampleUpgradeOp (by decide)).2 rfl).2.2 sampleUpgradeOp rfl rfl).2

/-- C4: `GetOperationByID` scans provisioning, then deprovisioning, then
upgrade-Kyma, each hit overwriting the previous one, so on an id collision
the operation of the last kind scanned wins (upgrade-Kyma over
deprovisioning over provisioning), and an id present in no kind yields
`NotFound`. -/
theorem get_operation_by_id_precedence :
    ∀ (s : operations) (operationID : String),
      (∀ u : UpgradeKymaOperation,
          goMapLookup s.upgradeKymaOperations operationID = some u →
          s.GetOperationByID operationID = Except.ok u.Operation)
      ∧ (goMapLookup s.upgradeKymaOperations operationID = none →
          ∀ d : DeprovisioningOperation,
            goMapLookup s.deprovisioningOperations operationID = some d →
            s.GetOperationByID operationID = Except.ok d.Operation)
      ∧ (goMapLookup s.upgradeKymaOperations operationID = none →
          goMapLookup s.deprovisioningOperations operationID = none →
          ∀ p : ProvisioningOperation,
            goMapLookup s.provisioningOperations operationID = some p →
            s.GetOperationByID operationID = Except.ok p.Operation)
      ∧ (goMapLookup s.upgradeKymaOperations operationID = none →
          goMapLookup s.deprovisioningOperations operationID = none →
          goMapLookup s.provisioningOperations operationID = none →
          s.GetOperationByID operationID = Except.error DBErr.NotFound) := by
  intro s operationID
  refine ⟨?_, ?_, ?_, ?_⟩
  · intro u hu
    simp only [operations.GetOperationByID, hu]
  · intro hu d hd
    simp only [operations.GetOperationByID, hu, hd]
  · intro hu hd p hp
    simp only [operations.GetOperationByID, hu, hd, hp]
  · intro hu hd hp
    simp only [operations.GetOperationByID, hu, hd, hp]

/-- C4 witness: in a store holding `sampleUpgradeOp` under id `op1`,
`GetOperationByID` returns its operation core. -/
theorem get_operation_by_id_precedence_witness :
    witnessStore.GetOperationByID "op1" = Except.ok sampleUpgradeOp.Operation :=
  (get_operation_by_id_precedence witnessStore "op1").1 sampleUpgradeOp (by decide)

/-- C5: each of the three Insert functions fails with `AlreadyExists` and
leaves the store unchanged when an operation with the same id is already in
that kind's collection, and otherwise succeeds, making the operation
retrievable by its id. -/
theorem insert_operation_unique_id :
    (∀ (s : operations) (op : ProvisioningOperation),
      (∀ old : ProvisioningOperation,
          goMapLookup s.provisioningOperations op.Operation.ID = some old →
          s.InsertProvisioningOperation op = (s, some DBErr.AlreadyExists))
      ∧ (goMapLookup s.provisioningOperations op.Operation.ID = none →
          (s.InsertProvisioningOperation op).2 = none
          ∧ (s.InsertProvisioningOperation op).1.GetProvisioningOperationByID
              op.Operation.ID = Except.ok op))
    ∧ (∀ (s : operations) (op : DeprovisioningOperation),
      (∀ old : DeprovisioningOperation,
          goMapLookup s.deprovisioningOperations op.Operation.ID = some old →
          s.InsertDeprovisioningOperation op = (s, some DBErr.AlreadyExists))
      ∧ (goMapLookup s.deprovisioningOperations op.Operation.ID = none →
          (s.InsertDeprovisioningOperation op).2 = none
          ∧ (s.InsertDeprovisioningOperation op).1.GetDeprovisioningOperationByID
              op.Operation.ID = Except.ok op))
    ∧ (∀ (s : operations) (op : UpgradeKymaOperation),
      (∀ old : UpgradeKymaOperation,
          goMapLookup s.upgradeKymaOperations op.Operation.ID = some old →
          s.InsertUpgradeKymaOperation op = (s, some DBErr.AlreadyExists))
      ∧ (goMapLookup s.upgradeKymaOperations op.Operation.ID = none →
          (s.InsertUpgradeKymaOperation op).2 = none
          ∧ (s.InsertUpgradeKymaOperation op).1.GetUpgradeKymaOperationByID
              op.Operation.ID = Except.ok op)) := by
  refine ⟨?_, ?_, ?_⟩
  · intro s op
    constructor
    · intro old hold
      simp only [operations.InsertProvisioningOperation, hold]
    · intro hnone
      constructor
      · simp only [operations.InsertProvisioningOperation, hnone]
      · simp only [operations.InsertProvisioningOperation, hnone,
          operations.GetProvisioningOperationByID, goMapLookup_goMapStore_self]
  · intro s op
    constructor
    · intro old hold
      simp only [operations.InsertDeprovisioningOperation, hold]
    · intro hnone
      constructor
      · simp only [operations.InsertDeprovisioningOperation, hnone]
      · simp only [operations.InsertDeprovisioningOperation, hnone,
          operations.GetDeprovisioningOperationByID, goMapLookup_goMapStore_self]
  · intro s op
    constructor
    · intro old hold
      simp only [operations.InsertUpgradeKymaOperation, hold]
    · intro hnone
      constructor
      · simp only [operations.InsertUpgradeKymaOperation, hnone]
      · simp only [operations.InsertUpgradeKymaOperation, hnone,
          operations.GetUpgradeKymaOperationByID, goMapLookup_goMapStore_self]

/-- C5 witness: inserting `sampleUpgradeOp` into the empty store succeeds and
makes it retrievable; inserting it again fails with `AlreadyExists` and
leaves the store unchanged. -/
theorem insert_operation_unique_id_witness :
    (NewOperation.InsertUpgradeKymaOperation sampleUpgradeOp).2 = none
    ∧ (NewOperation.InsertUpgradeKymaOperation sampleUpgradeOp).1.GetUpgradeKymaOperationByID
        sampleUpgradeOp.Operation.ID = Except.ok sampleUpgradeOp
    ∧ (NewOperation.InsertUpgradeKymaOperation sampleUpgradeOp).1.InsertUpgradeKymaOperation
        sampleUpgradeOp =
      ((NewOperation.InsertUpgradeKymaOperation sampleUpgradeOp).1, some DBErr.AlreadyExists) := by
  have h1 := (insert_operation_unique_id.2.2 NewOperation sampleUpgradeOp).2 (by decide)
  refine ⟨h1.1, h1.2, ?_⟩
  exact (insert_operation_unique_id.2.2
      (NewOperation.InsertUpgradeKymaOperation sampleUpgradeOp).1 sampleUpgradeOp).1
    sampleUpgradeOp (by decide)

theorem listUpgradeLoop_offset_zero_isSome :
    ∀ (fuel : Nat) (m : GoMap UpgradeKymaOperation) (sorted : List UpgradeKymaOperation)
      (pageSize i : Nat), pageSize - i ≤ fuel →
      (listUpgradeLoop m sorted 0 pageSize i).isSome = true := by
  intro fuel
  induction fuel with
  | zero =>
      intro m sorted pageSize i hle
      unfold listUpgradeLoop
      have h1 : ¬(i < pageSize ∧ i < sorted.length) := by omega
      simp [h1]
  | succ fuel ih =>
      intro m sorted pageSize i hle
      unfold listUpgradeLoop
      by_cases hc : i < pageSize ∧ i < sorted.length
      · have hi : i < sorted.length := by omega
        have hget : sorted[i]? = some sorted[i] := List.getElem?_eq_getElem hi
        have hrec := ih m sorted pageSize (i + 1) (by omega)
        simp only [Nat.add_zero, Nat.zero_add, if_pos hc, hget]
        cases hrecv : listUpgradeLoop m sorted 0 pageSize (i + 1) with
        | none => rw [hrecv] at hrec; simp at hrec
        | some rest => simp
      · simp only [Nat.add_zero, Nat.zero_add, if_neg hc]
        simp

/-- C2: evaluation of `ListUpgradeKymaOperationsByOrchestrationID` at the
failing input: the store holds exactly one upgrade-Kyma operation, whose
`OrchestrationID` is `orch1`, yet querying orchestration `other` (page 1,
page size 1) returns one zero-valued operation with `returned = 1` and
`total = 1` instead of the empty page with `returned = 0` and `total = 0`:
the filter by orchestration id is discarded, the page slots are re-read from
the id-keyed map under an `OrchestrationID` key (missing, hence the Go zero
value), and `total` counts every stored operation. -/
theorem list_by_orchestration_id_bug_eval :
    sampleStore.ListUpgradeKymaOperationsByOrchestrationID "other" 1 1 =
      some ([zeroUpgradeKymaOperation], 1, 1)
    ∧ (goMapValues sampleStore.upgradeKymaOperations).all
        (fun op => op.OrchestrationID != "other") = true := by
  constructor
  · unfold operations.ListUpgradeKymaOperationsByOrchestrationID
    unfold listUpgradeLoop
    unfold listUpgradeLoop
    decide
  · decide

/-- C8 counterexample: with one stored upgrade-Kyma operation, page 2 of
page size 1 (both within the claim's `page ≥ 1`, `pageSize ≥ 0` range) makes
the pagination loop access index 1 of the one-element sorted list, which is
out of range (`none` models the index-out-of-range panic). -/
theorem list_by_orchestration_out_of_range :
    sampleStore.ListUpgradeKymaOperationsByOrchestrationID "orch1" 1 2 = none := by
  unfold operations.ListUpgradeKymaOperationsByOrchestrationID
  unfold listUpgradeLoop
  decide

/-- C8 amended: for page 1 the offset is 0 and the loop guard
`i < len(sortedOperations) + offset` does keep every access in bounds, so
the call never reaches an index-out-of-range panic; for pages ≥ 2 the guard
admits out-of-range indices (see the counterexample). -/
theorem list_by_orchestration_page_one_in_bounds :
    ∀ (s : operations) (orchestrationID : String) (pageSize : Nat),
      (s.ListUpgradeKymaOperationsByOrchestrationID orchestrationID pageSize 1).isSome = true := by
  intro s orch pageSize
  simp only [operations.ListUpgradeKymaOperationsByOrchestrationID]
  have hoff : ConvertPageAndPageSizeToOffset pageSize 1 = 0 := by
    simp [ConvertPageAndPageSizeToOffset]
  rw [hoff]
  have hloop := listUpgradeLoop_offset_zero_isSome pageSize s.upgradeKymaOperations
    (getUpgradeSortedByCreatedAt s.upgradeKymaOperations) pageSize 0 (by omega)
  cases hrecv : listUpgradeLoop s.upgradeKymaOperations
      (getUpgradeSortedByCreatedAt s.upgradeKymaOperations) 0 pageSize 0 with
  | none => rw [hrecv] at hloop; simp at hloop
  | some result => simp

/-- C3: evaluation of `GetOperationStatsForOrchestration` at the failing
input: the only stored upgrade-Kyma operation belongs to orchestration
`orch1` and is `in progress`, yet the stats scoped to orchestration
`other-orch` still count it (the count at `in progress` is 1, not 0) — the
function iterates over every upgrade-Kyma operation and never consults its
`orchestrationID` argument. -/
theorem stats_for_orchestration_bug_eval :
    sampleStore.GetOperationStatsForOrchestration "other-orch" InProgress = 1
    ∧ (goMapValues sampleStore.upgradeKymaOperations).all
        (fun op => op.OrchestrationID != "other-orch") = true := by
  constructor <;> decide

/-- C9: `ListUpgradeKymaOperationsByInstanceID` ignores its `instanceID`
argument (any two arguments yield the same result) and returns the full,
unpaged list of all stored upgrade-Kyma operations sorted by `CreatedAt`
ascending. -/
theorem list_by_instance_id_ignores_arg :
    ∀ (s : operations) (instanceID1 instanceID2 : String),
      s.ListUpgradeKymaOperationsByInstanceID instanceID1 =
        s.ListUpgradeKymaOperationsByInstanceID instanceID2
      ∧ (s.ListUpgradeKymaOperationsByInstanceID instanceID1).Perm
          (goMapValues s.upgradeKymaOperations)
      ∧ List.Pairwise createdAtLE (s.ListUpgradeKymaOperationsByInstanceID instanceID1) := by
  intro s i1 i2
  refine ⟨rfl, ?_, ?_⟩
  · simp only [operations.ListUpgradeKymaOperationsByInstanceID, getUpgradeSortedByCreatedAt]
    exact List.perm_insertionSort createdAtLE _
  · simp only [operations.ListUpgradeKymaOperationsByInstanceID, getUpgradeSortedByCreatedAt]
    haveI : IsTotal UpgradeKymaOperation createdAtLE := ⟨fun a b => Int.le_total _ _⟩
    haveI : IsTrans UpgradeKymaOperation createdAtLE :=
      ⟨fun a b c hab hbc => le_trans hab hbc⟩
    exact List.sorted_insertionSort createdAtLE _

theorem foldl_append_matching {α : Type} (opOf : α → Operation) (opID : String) :
    ∀ (vals : List α) (acc : List Operation),
      vals.foldl (fun acc2 op => if (opOf op).ID = opID then acc2 ++ [opOf op] else acc2) acc
        = acc ++ (vals.filter (fun op => decide ((opOf op).ID = opID))).map opOf := by
  intro vals
  induction vals with
  | nil => intro acc; simp
  | cons v vs ih =>
      intro acc
      by_cases h : (opOf v).ID = opID
      · simp [List.foldl_cons, h, ih, List.filter_cons]
      · simp [List.foldl_cons, h, ih, List.filter_cons]

theorem listfold_matching_eq {α : Type} (opOf : α → Operation) :
    ∀ (opIdList : List String) (vals : List α) (ops : List Operation),
      opIdList.foldl
          (fun acc opID =>
            vals.foldl (fun acc2 op => if (opOf op).ID = opID then acc2 ++ [opOf op] else acc2) acc)
          ops
        = ops ++ opIdList.flatMap
            (fun opID => (vals.filter (fun op => decide ((opOf op).ID = opID))).map opOf) := by
  intro opIdList
  induction opIdList with
  | nil => intro vals ops; simp
  | cons opID rest ih =>
      intro vals ops
      rw [List.foldl_cons, ih, foldl_append_matching]
      simp [List.flatMap_cons, List.append_assoc]

theorem appendOpsMatchingIDs_eq {α : Type} (opOf : α → Operation) (opIdList : List String)
    (vals : List α) (ops : List Operation) :
    appendOpsMatchingIDs opIdList vals opOf ops
      = ops ++ opIdList.flatMap
          (fun opID => (vals.filter (fun op => decide ((opOf op).ID = opID))).map opOf) :=
  listfold_matching_eq opOf opIdList vals ops

/-- C10: `GetOperationsForIDs` returns `NotFound` (not an empty list) when no
stored operation of any kind carries an id from the list, and otherwise
returns the matching operations grouped by kind in the fixed order
upgrade-Kyma, then provisioning, then deprovisioning (not interleaved in the
order of the input id list). -/
theorem get_operations_for_ids_spec :
    ∀ (s : operations) (opIdList : List String),
      ((∀ op ∈ goMapValues s.upgradeKymaOperations, op.Operation.ID ∉ opIdList) →
       (∀ op ∈ goMapValues s.provisioningOperations, op.Operation.ID ∉ opIdList) →
       (∀ op ∈ goMapValues s.deprovisioningOperations, op.Operation.ID ∉ opIdList) →
        s.GetOperationsForIDs opIdList = Except.error DBErr.NotFound)
      ∧ (((∃ op ∈ goMapValues s.upgradeKymaOperations, op.Operation.ID ∈ opIdList) ∨
          (∃ op ∈ goMapValues s.provisioningOperations, op.Operation.ID ∈ opIdList) ∨
          (∃ op ∈ goMapValues s.deprovisioningOperations, op.Operation.ID ∈ opIdList)) →
          s.GetOperationsForIDs opIdList =
            Except.ok
              (opIdList.flatMap (fun opID =>
                  ((goMapValues s.upgradeKymaOperations).filter
                      (fun op => decide (op.Operation.ID = opID))).map (fun op => op.Operation))
               ++ (opIdList.flatMap (fun opID =>
                  ((goMapValues s.provisioningOperations).filter
                      (fun op => decide (op.Operation.ID = opID))).map (fun op => op.Operation))
               ++ opIdList.flatMap (fun opID =>
                  ((goMapValues s.deprovisioningOperations).filter
                      (fun op => decide (op.Operation.ID = opID))).map (fun op => op.Operation))))) := by
  intro s opIdList
  have hunf : s.GetOperationsForIDs opIdList =
      if (opIdList.flatMap (fun opID =>
            ((goMapValues s.upgradeKymaOperations).filter
                (fun op => decide (op.Operation.ID = opID))).map (fun op => op.Operation))
          ++ (opIdList.flatMap (fun opID =>
            ((goMapValues s.provisioningOperations).filter
                (fun op => decide (op.Operation.ID = opID))).map (fun op => op.Operation))
          ++ opIdList.flatMap (fun opID =>
            ((goMapValues s.deprovisioningOperations).filter
                (fun op => decide (op.Operation.ID = opID))).map (fun op => op.Operation)))).length
          = 0 then
        Except.error DBErr.NotFound
      else
        Except.ok
          (opIdList.flatMap (fun opID =>
              ((goMapValues s.upgradeKymaOperations).filter
                  (fun op => decide (op.Operation.ID = opID))).map (fun op => op.Operation))
           ++ (opIdList.flatMap (fun opID =>
              ((goMapValues s.provisioningOperations).filter
                  (fun op => decide (op.Operation.ID = opID))).map (fun op => op.Operation))
           ++ opIdList.flatMap (fun opID =>
              ((goMapValues s.deprovisioningOperations).filter
                  (fun op => decide (op.Operation.ID = opID))).map (fun op => op.Operation)))) := by
    simp only [operations.GetOperationsForIDs, appendOpsMatchingIDs_eq, List.nil_append,
      List.append_assoc]
  constructor
  · intro h1 h2 h3
    have hU : opIdList.flatMap (fun opID =>
        ((goMapValues s.upgradeKymaOperations).filter
            (fun op => decide (op.Operation.ID = opID))).map (fun op => op.Operation)) = [] := by
      simp only [List.flatMap_eq_nil_iff, List.map_eq_nil_iff, List.filter_eq_nil_iff]
      intro opID hid op hop
      simp only [decide_eq_true_eq]
      intro hEq
      exact h1 op hop (hEq ▸ hid)
    have hP : opIdList.flatMap (fun opID =>
        ((goMapValues s.provisioningOperations).filter
            (fun op => decide (op.Operation.ID = opID))).map (fun op => op.Operation)) = [] := by
      simp only [List.flatMap_eq_nil_iff, List.map_eq_nil_iff, List.filter_eq_nil_iff]
      intro opID hid op hop
      simp only [decide_eq_true_eq]
      intro hEq
      exact h2 op hop (hEq ▸ hid)
    have hD : opIdList.flatMap (fun opID =>
        ((goMapValues s.deprovisioningOperations).filter
            (fun op => decide (op.Operation.ID = opID))).map (fun op => op.Operation)) = [] := by
      simp only [List.flatMap_eq_nil_iff, List.map_eq_nil_iff, List.filter_eq_nil_iff]
      intro opID hid op hop
      simp only [decide_eq_true_eq]
      intro hEq
      exact h3 op hop (hEq ▸ hid)
    rw [hunf, hU, hP, hD]
    simp
  · intro hex
    have hmem : ∃ x, x ∈ opIdList.flatMap (fun opID =>
          ((goMapValues s.upgradeKymaOperations).filter
              (fun op => decide (op.Operation.ID = opID))).map (fun op => op.Operation))
        ++ (opIdList.flatMap (fun opID =>
          ((goMapValues s.provisioningOperations).filter
              (fun op => decide (op.Operation.ID = opID))).map (fun op => op.Operation))
        ++ opIdList.flatMap (fun opID =>
          ((goMapValues s.deprovisioningOperations).filter
              (fun op => decide (op.Operation.ID = opID))).map (fun op => op.Operation))) := by
      rcases hex with ⟨op, hop, hid⟩ | ⟨op, hop, hid⟩ | ⟨op, hop, hid⟩
      · exact ⟨op.Operation, List.mem_append.mpr (Or.inl (List.mem_flatMap.mpr
          ⟨op.Operation.ID, hid, List.mem_map.mpr
            ⟨op, List.mem_filter.mpr ⟨hop, by simp⟩, rfl⟩⟩))⟩
      · exact ⟨op.Operation, List.mem_append.mpr (Or.inr (List.mem_append.mpr (Or.inl
          (List.mem_flatMap.mpr ⟨op.Operation.ID, hid, List.mem_map.mpr
            ⟨op, List.mem_filter.mpr ⟨hop, by simp⟩, rfl⟩⟩))))⟩
      · exact ⟨op.Operation, List.mem_append.mpr (Or.inr (List.mem_append.mpr (Or.inr
          (List.mem_flatMap.mpr ⟨op.Operation.ID, hid, List.mem_map.mpr
            ⟨op, List.mem_filter.mpr ⟨hop, by simp⟩, rfl⟩⟩))))⟩
    obtain ⟨x, hx⟩ := hmem
    have hne : ¬((opIdList.flatMap (fun opID =>
          ((goMapValues s.upgradeKymaOperations).filter
              (fun op => decide (op.Operation.ID = opID))).map (fun op => op.Operation))
        ++ (opIdList.flatMap (fun opID =>
          ((goMapValues s.provisioningOperations).filter
              (fun op => decide (op.Operation.ID = opID))).map (fun op => op.Operation))
        ++ opIdList.flatMap (fun opID =>
          ((goMapValues s.deprovisioningOperations).filter
              (fun op => decide (op.Operation.ID = opID))).map (fun op => op.Operation)))).length
        = 0) := by
      intro h0
      rw [List.length_eq_zero] at h0
      rw [h0] at hx
      exact List.not_mem_nil x hx
    rw [hunf, if_neg hne]

/-- C10 witness: in the three-kind store, querying the id list `[p1]`
returns exactly the provisioning operation's core, not `NotFound`. -/
theorem get_operations_for_ids_spec_witness :
    witnessStore.GetOperationsForIDs ["p1"] = Except.ok [sampleProvisioningOp.Operation] := by
  have h := (get_operations_for_ids_spec witnessStore ["p1"]).2
    (Or.inr (Or.inl ⟨sampleProvisioningOp, by decide, by decide⟩))
  rw [h]
  rfl

theorem appendParsedTargets_ok :
    ∀ (inputs : List String) (acc : List RuntimeTarget) (includeFlag : Bool),
      (∀ t ∈ inputs, exceptOk (parseRuntimeTarget t includeFlag) = true) →
      appendParsedTargets inputs acc includeFlag
        = Except.ok
            (acc ++ inputs.filterMap (fun t => (parseRuntimeTarget t includeFlag).toOption)) := by
  intro inputs
  induction inputs with
  | nil => intro acc inc h; simp [appendParsedTargets]
  | cons t rest ih =>
      intro acc inc h
      have ht := h t (by simp)
      cases hp : parseRuntimeTarget t inc with
      | error e => rw [hp] at ht; simp [exceptOk] at ht
      | ok rt =>
          have hrest : ∀ x ∈ rest, exceptOk (parseRuntimeTarget x inc) = true :=
            fun x hx => h x (by simp [hx])
          simp only [appendParsedTargets, hp, ih (acc ++ [rt]) inc hrest,
            List.filterMap_cons, Except.toOption]
          simp [List.append_assoc]

/-- C6: `ValidateTransformRuntimeTargetOpts` rejects an empty include list
with an error even when exclude selectors are present; with a non-empty
include list whose selectors (and whose exclude selectors) all parse, it
succeeds and fills the `TargetSpec`'s `Include` and `Exclude` lists from the
respective inputs. -/
theorem validate_transform_runtime_target_opts_spec :
    ∀ (targetInputs targetExcludeInputs : List String) (targetSpec : TargetSpec),
      (targetInputs = [] →
        ValidateTransformRuntimeTargetOpts targetInputs targetExcludeInputs targetSpec
          = Except.error "at least one runtime target must be specified with --target")
      ∧ (targetInputs ≠ [] →
        (∀ t ∈ targetInputs, exceptOk (parseRuntimeTarget t true) = true) →
        (∀ t ∈ targetExcludeInputs, exceptOk (parseRuntimeTarget t false) = true) →
        ValidateTransformRuntimeTargetOpts targetInputs targetExcludeInputs targetSpec
          = Except.ok
              { targetSpec with
                  Include := targetSpec.Include
                    ++ targetInputs.filterMap (fun t => (parseRuntimeTarget t true).toOption),
                  Exclude := targetSpec.Exclude
                    ++ targetExcludeInputs.filterMap
                        (fun t => (parseRuntimeTarget t false).toOption) }) := by
  intro targetInputs targetExcludeInputs targetSpec
  constructor
  · intro h
    subst h
    simp [ValidateTransformRuntimeTargetOpts]
  · intro hne hinc hexc
    have hlen : ¬(targetInputs.length = 0) := fun h0 => hne (List.length_eq_zero.mp h0)
    simp only [ValidateTransformRuntimeTargetOpts, if_neg hlen,
      appendParsedTargets_ok targetInputs targetSpec.Include true hinc,
      appendParsedTargets_ok targetExcludeInputs targetSpec.Exclude false hexc]

/-- C6 witness: one include selector and one exclude selector, both valid:
validation succeeds and fills `Include` and `Exclude`. -/
theorem validate_transform_runtime_target_opts_witness :
    ValidateTransformRuntimeTargetOpts ["account=CA"] ["region=eu"] {} =
      Except.ok { Include := [{ GlobalAccount := "CA" }], Exclude := [{ Region := "eu" }] } := by
  have h := (validate_transform_runtime_target_opts_spec ["account=CA"] ["region=eu"] {}).2
    (by decide) (by decide) (by decide)
  rw [h]
  rfl

theorem parseSelectors_all_exclude_error :
    ∀ (selectors : List String) (target : RuntimeTarget) (flagName : String),
      TargetAll ∈ selectors →
      exceptOk (parseSelectors target selectors false flagName) = false := by
  intro selectors
  induction selectors with
  | nil => intro t f h; simp at h
  | cons sel rest ih =>
      intro t f h
      by_cases hsel : sel = TargetAll
      · subst hsel
        have hkey : goSplit TargetAll '=' = [TargetAll] := by decide
        simp [parseSelectors, parseOneSelector, hkey, runtimeTargetSelectorStep, exceptOk]
      · have hrest : TargetAll ∈ rest := by
          cases List.mem_cons.mp h with
          | inl heq => exact absurd heq.symm hsel
          | inr hmem => exact hmem
        simp only [parseSelectors]
        cases hstep : parseOneSelector t sel false f with
        | error e => simp [exceptOk]
        | ok t1 => exact ih t1 f hrest

/-- C7: the selector switch of `parseRuntimeTarget` accepts the literal
`all` only in an include position — parsing `all` as an include succeeds,
while any exclude specifier containing the selector `all` yields an error;
the keys `account`, `subaccount`, `region` and `runtime-id` are rejected
when their value is empty and accepted with any non-empty value, in both
include and exclude positions; every other selector key is rejected with an
`invalid selector` error in both positions. -/
theorem parse_runtime_target_selector_rules :
    parseRuntimeTarget TargetAll true = Except.ok { Target := TargetAll }
    ∧ (∀ targetInput : String, TargetAll ∈ goSplit targetInput ',' →
        exceptOk (parseRuntimeTarget targetInput false) = false)
    ∧ (∀ (target : RuntimeTarget) (selectorKey : String) (includeFlag : Bool)
        (flagName : String),
        (selectorKey = targetAccount ∨ selectorKey = targetSubaccount ∨
         selectorKey = targetRegion ∨ selectorKey = targetRuntimeID) →
        exceptOk (runtimeTargetSelectorStep target selectorKey "" includeFlag flagName) = false
        ∧ (∀ selectorValue : String, selectorValue ≠ "" →
            exceptOk (runtimeTargetSelectorStep target selectorKey selectorValue includeFlag
              flagName) = true))
    ∧ (∀ (target : RuntimeTarget) (selectorKey selectorValue : String) (includeFlag : Bool)
        (flagName : String),
        selectorKey ≠ TargetAll → selectorKey ≠ targetAccount →
        selectorKey ≠ targetSubaccount → selectorKey ≠ targetRegion →
        selectorKey ≠ targetRuntimeID →
        runtimeTargetSelectorStep target selectorKey selectorValue includeFlag flagName
          = Except.error ("invalid selector: " ++ flagName ++ " " ++ selectorKey)) := by
  refine ⟨rfl, ?_, ?_, ?_⟩
  · intro targetInput h
    simp only [parseRuntimeTarget, Bool.false_eq_true, if_false]
    exact parseSelectors_all_exclude_error (goSplit targetInput ',') {} "--target-exclude" h
  · intro target selectorKey includeFlag flagName hmem
    rcases hmem with rfl | rfl | rfl | rfl <;>
      exact ⟨by simp [runtimeTargetSelectorStep, checkRuntimeTargetSelector, exceptOk,
               targetAccount, targetSubaccount, targetRegion, targetRuntimeID, TargetAll],
             fun v hv => by
               simp [runtimeTargetSelectorStep, checkRuntimeTargetSelector, exceptOk, hv,
                 targetAccount, targetSubaccount, targetRegion, targetRuntimeID, TargetAll]⟩
  · intro target selectorKey selectorValue includeFlag flagName h1 h2 h3 h4 h5
    simp [runtimeTargetSelectorStep, h1, h2, h3, h4, h5]

/-- C7 witness: `all` as an exclude specifier is rejected, and an
include-position `region` selector with empty value is rejected. -/
theorem parse_runtime_target_selector_rules_witness :
    exceptOk (parseRuntimeTarget "all" false) = false
    ∧ exceptOk (runtimeTargetSelectorStep {} targetRegion "" true "--target") = false := by
  constructor
  · exact parse_runtime_target_selector_rules.2.1 "all" (by decide)
  · exact (parse_runtime_target_selector_rules.2.2.1 {} targetRegion true "--target"
      (Or.inr (Or.inr (Or.inl rfl)))).1
